import Mathlib

namespace SysMon

set_option maxRecDepth 8000

/-!
Verification of the alert / aggregation / reconciliation
core of the system-monitor repository.  The operations of `web/app.py` and
`web/report_generator.py` are embedded directly from the source; the
`core.alert_manager` module and the rolling series aggregator are not part of
the reviewed sources (only their test suites are), so those operations are
modelled from the specification, as noted on each definition.
-/

/-- A JSON value as produced by `json.load`: numbers are modelled exactly as
rationals.  Objects keep their key/value pairs in insertion order, as Python
dicts do. -/
inductive Json where
  | null
  | bool (b : Bool)
  | num (q : ℚ)
  | str (s : String)
  | arr (xs : List Json)
  | obj (kvs : List (String × Json))
deriving Repr

/-- Python truthiness of a JSON value (`bool(x)`). -/
def Json.truthy : Json → Bool
  | .null => false
  | .bool b => b
  | .num q => q != 0
  | .str s => s != ""
  | .arr xs => !xs.isEmpty
  | .obj kvs => !kvs.isEmpty

/-- Keyed lookup in an association list modelling a Python dict
(`dict.__getitem__` / `dict.get` without default), first match wins. -/
def jlookup {β : Type} (k : String) : List (String × β) → Option β
  | [] => none
  | (k', v) :: rest => if k' = k then some v else jlookup k rest

/-- Python `d.get(k, default)` on a JSON value known to be a dict. -/
def Json.getD (j : Json) (k : String) (default : Json) : Json :=
  match j with
  | .obj kvs => (jlookup k kvs).getD default
  | _ => default

/-- Python `d.get(k)` on a JSON value known to be a dict: `none` models Python
`None` for a missing key. -/
def Json.get? (j : Json) (k : String) : Option Json :=
  match j with
  | .obj kvs => jlookup k kvs
  | _ => none

/-- Numeric view of a JSON value, mirroring Python arithmetic: `bool` is an
`int` subtype (`True == 1`, `False == 0`); anything else is not a number. -/
def Json.asNum : Json → Option ℚ
  | .num q => some q
  | .bool b => some (if b then 1 else 0)
  | _ => none

/-! ## Rolling series buffer (C2)

Modelled from the spec: the Rolling Series Aggregator is not among the
reviewed sources; its eviction step is modelled from spec §3 ("when appending
beyond capacity, the oldest point is evicted (FIFO)") and from the inline
algorithm of `test_rolling_window_maintains_size`
(`window.append(x); if len(window) > max_size: window.pop(0)`). -/

/-- One append to a capacity-`N` series buffer: push at the end, then drop
the oldest element when the length exceeds `N`. -/
def pushEvict {α : Type} (N : Nat) (buf : List α) (x : α) : List α :=
  let b := buf ++ [x]
  if N < b.length then b.tail else b

/-- Feeding a whole sequence of appends into an initially empty buffer. -/
def runBuffer {α : Type} (N : Nat) (l : List α) : List α :=
  l.foldl (pushEvict N) []

/-! ## Network rate derivation (C4) -/

/-- Rate of a cumulative byte counter in MB/s, as computed inline by
`test_network_rate_calculation` in `src/tests/python/test_chart_data.py`:
`(curr - prev) / time_delta / (1024 * 1024)`. -/
def networkRate (c0 c1 dt : ℚ) : ℚ :=
  (c1 - c0) / dt / (1024 * 1024)

/-- Modelled from the spec: the counter-reset guard of the chart pipeline is
not among the reviewed sources; spec §4.2 requires a counter decrease between
ticks to be reported as 0 or null, never negative. -/
def networkRateSafe (c0 c1 dt : ℚ) : ℚ :=
  if c1 < c0 then 0 else networkRate c0 c1 dt

/-! ## Alert Engine (C1, C6, C7, C8)

Modelled from the spec: `core.alert_manager` is not among the reviewed
sources (only `src/tests/python/test_alert_manager.py` is); these operations
follow spec §4.1 word for word.  The alert-log file is modelled as an
explicit state: absent, unparseable JSON, or a parsed JSON document. -/

/-- State of the persisted alert-log file. -/
inductive FileState where
  | missing
  | corrupt
  | doc (j : Json)
deriving Repr

/-- The well-formed empty log `{timestamp: now, alerts: []}` written when the
file is created or cleared. -/
def emptyLog (now : String) : Json :=
  .obj [("timestamp", .str now), ("alerts", .arr [])]

/-- The `alerts` field of a parsed log document, provided it is a sequence;
`none` when the document is not an object, lacks the field, or the field is
not a sequence. -/
def alertsOf (j : Json) : Option (List Json) :=
  match j with
  | .obj kvs =>
      match jlookup "alerts" kvs with
      | some (.arr l) => some l
      | _ => none
  | _ => none

/-- Modelled from the spec: `load` (spec §4.1).  A missing file is created
empty as a side effect and yields `[]`; malformed JSON or a non-sequence
`alerts` field yields `[]` with the file left untouched; otherwise the stored
alerts are returned.  The `level_filter` and `limit` parameters are omitted:
no claim exercises them. -/
def load_alerts (now : String) (st : FileState) : List Json × FileState :=
  match st with
  | .missing => ([], .doc (emptyLog now))
  | .corrupt => ([], .corrupt)
  | .doc j => ((alertsOf j).getD [], .doc j)

/-- The enumerated set of valid alert levels (spec §3). -/
def validLevels : List String := ["info", "warning", "critical"]

/-- The persisted record built by `add`: `value` and `threshold` are omitted
entirely when not supplied (spec §4.1). -/
def mkAlert (metric level message : String) (value threshold : Option ℚ)
    (now : String) : Json :=
  .obj ([("level", .str level), ("metric", .str metric),
         ("message", .str message)]
    ++ (match value with | some v => [("value", Json.num v)] | none => [])
    ++ (match threshold with | some t => [("threshold", Json.num t)] | none => [])
    ++ [("timestamp", .str now)])

/-- Modelled from the spec: `add` (spec §4.1).  The level is validated
against the enumerated set — on failure `false` is returned and nothing is
written; otherwise the existing alerts are loaded (creating the file if
needed), the new alert is appended, and the whole file is rewritten. -/
def add_alert (metric level message : String) (value threshold : Option ℚ)
    (now : String) (st : FileState) : Bool × FileState :=
  if level ∈ validLevels then
    let (alerts, _) := load_alerts now st
    (true, .doc (.obj [("timestamp", .str now),
                       ("alerts", .arr (alerts ++ [mkAlert metric level message value threshold now]))]))
  else
    (false, st)

/-- Sort key of an alert for `sort_by_timestamp`: its `timestamp` field when
present, and `none` — standing for the minimum possible timestamp — when the
field is missing (the permissive policy of spec §4.1). -/
def tsKey (a : Json) : Option String :=
  match a with
  | .obj kvs =>
      match jlookup "timestamp" kvs with
      | some (.str s) => some s
      | _ => none
  | _ => none

/-- Lexicographic order on character lists, by code point. -/
def lexLe : List Char → List Char → Bool
  | [], _ => true
  | _ :: _, [] => false
  | c :: cs, d :: ds =>
      if c.toNat = d.toNat then lexLe cs ds else decide (c.toNat < d.toNat)

/-- Order on sort keys: a missing timestamp is below every timestamp, and
present timestamps compare lexicographically (valid for zero-padded
`Z`-suffixed ISO-8601 strings, spec §4.1). -/
def keyLe : Option String → Option String → Bool
  | none, _ => true
  | some _, none => false
  | some a, some b => lexLe a.data b.data

/-- Descending-timestamp order between two alerts (newest first). -/
def tsGE (a b : Json) : Prop := keyLe (tsKey b) (tsKey a) = true

instance : DecidableRel tsGE := fun _ _ => by
  unfold tsGE; infer_instance

/-- Modelled from the spec: `sort_by_timestamp` (spec §4.1), descending
(newest first), with a missing timestamp treated as the minimum possible
value so that it sorts last, and no entry ever causing a failure. -/
def sort_alerts_by_timestamp (alerts : List Json) : List Json :=
  List.insertionSort tsGE alerts

/-- The `message` field of an alert, for reading off sort results. -/
def msgOf (a : Json) : String :=
  match a.get? "message" with
  | some (.str s) => s
  | _ => ""

/-! ## Dual-source reconciliation and availability reporting
(`src/web/app.py`, C3 and C5) -/

/-- Truthiness of a Python variable holding either `None` or a parsed JSON
value. -/
def optTruthy : Option Json → Bool
  | none => false
  | some j => j.truthy

/-- Reading a snapshot file: `none` — the outer option — models "file does
not exist", `some none` models "exists but cannot be read or parsed" (the
code catches the exception), and `some (some j)` a successful parse. -/
def fileRead : Option (Option Json) → Option Json
  | some (some j) => some j
  | _ => none

/-- The observable environment of `get_dual_metrics`: the two snapshot files
and the live endpoint of the native agent (`none` = request failed, timed out or
returned non-200). -/
structure DualEnv where
  hostLatest : Option (Option Json)
  goLatest : Option (Option Json)
  nativeApi : Option Json

/-- The JSON body returned by `get_dual_metrics`. -/
structure DualResult where
  success : Bool
  legacy : Option Json
  native : Option Json

/-- Embeds `get_dual_metrics` (`src/web/app.py:148-183`): legacy comes only from
`Host/output/latest.json`; native reads `go_latest.json` first ("File
preferred for speed") and consults the live API only when the file value is
missing, unreadable or falsy, keeping the file value when the API also
fails; the response always carries `success: true`. -/
def get_dual_metrics (env : DualEnv) : DualResult :=
  let legacy := fileRead env.hostLatest
  let nativeFile := fileRead env.goLatest
  let native :=
    if optTruthy nativeFile then nativeFile
    else
      match env.nativeApi with
      | some a => some a
      | none => nativeFile
  { success := true, legacy := legacy, native := native }

/-- The observable environment of `get_metrics`: the host snapshot file and
the parsed contents of the `json/` archive directory, newest first. -/
structure MetricsEnv where
  hostLatest : Option (Option Json)
  archive : List (Option Json)

/-- Outcome of the `/api/metrics` endpoint. -/
inductive MetricsResult where
  | ok (source : String) (data : Json)
  | unavailable
deriving Repr

/-- Embeds `get_metrics` (`src/web/app.py:61-106`): prefer the host file, fall back
to the newest archive file (a read failure there is caught and not retried
on older files), and answer a distinct 503 `success: false` state when
neither yields data. -/
def get_metrics (env : MetricsEnv) : MetricsResult :=
  match env.hostLatest with
  | some (some j) => .ok "host_direct" j
  | _ =>
      match env.archive with
      | some j :: _ => .ok "archive_log" j
      | _ => .unavailable

/-- The observable environment of the metric-fetching phase of
`generate_report`. -/
structure ReportEnv where
  hostLatest : Option (Option Json)
  archive : List (Option Json)
  goLatest : Option (Option Json)
  nativeApi : Option Json

/-- The legacy metrics fetched by `generate_report`
(`src/web/app.py:203-217`): the host file, then — when that value is missing
or falsy — the newest archive file, keeping the previous value when the
archive read fails. -/
def report_legacy (env : ReportEnv) : Option Json :=
  let legacy0 := fileRead env.hostLatest
  if optTruthy legacy0 then legacy0
  else
    match env.archive with
    | some j :: _ => some j
    | _ => legacy0

/-- The native metrics fetched by `generate_report`
(`src/web/app.py:219-231`), same policy as in `get_dual_metrics`. -/
def report_native (env : ReportEnv) : Option Json :=
  let nativeFile := fileRead env.goLatest
  if optTruthy nativeFile then nativeFile
  else
    match env.nativeApi with
    | some a => some a
    | none => nativeFile

/-- Outcome of the availability gate of `generate_report`. -/
inductive ReportOutcome where
  | noMetrics
  | proceed (legacy native : Option Json)
deriving Repr

/-- The availability gate of `generate_report` (`src/web/app.py:233-234`): when
both fetched values are missing or falsy the endpoint answers
`success: false` before any report is rendered. -/
def generate_report_fetch (env : ReportEnv) : ReportOutcome :=
  let legacy := report_legacy env
  let native := report_native env
  if !optTruthy legacy && !optTruthy native then .noMetrics
  else .proceed legacy native

/-! ## Report generation (`src/web/report_generator.py`, C9 and C10) -/

/-- The Python exceptions the embedded report-generator code can raise. -/
inductive PyErr where
  | attributeError
  | typeError
deriving Repr, DecidableEq

/-- Python `str.lower()` (the levels in play are ASCII). -/
def pyLower (s : String) : String := String.mk (s.data.map Char.toLower)

/-- The update `counts[level] += 1` on the counts dict: increments the first entry with
the given key, leaves the list unchanged when the key is absent. -/
def bump (k : String) : List (String × Nat) → List (String × Nat)
  | [] => []
  | (k', n) :: rest => if k' = k then (k', n + 1) :: rest else (k', n) :: bump k rest

/-- The initial counts dict `{"critical": 0, "warning": 0, "info": 0}`. -/
def counts0 : List (String × Nat) := [("critical", 0), ("warning", 0), ("info", 0)]

/-- One iteration of the loop of `_count_alerts_by_level`: non-dict entries are
skipped; `alert.get("level", "info").lower()` raises `AttributeError` when
the `level` value is not a string; the count is incremented only when the
lowercased level is a key of the counts dict. -/
def countStep (cts : List (String × Nat)) (item : Json) :
    Except PyErr (List (String × Nat)) :=
  match item with
  | .obj kvs =>
      match jlookup "level" kvs with
      | some (.str s) =>
          let lvl := pyLower s
          .ok (if (cts.map Prod.fst).contains lvl then bump lvl cts else cts)
      | some _ => .error .attributeError
      | none => .ok (if (cts.map Prod.fst).contains "info" then bump "info" cts else cts)
  | _ => .ok cts

/-- Embeds `ReportGenerator._count_alerts_by_level`
(`src/web/report_generator.py:127-140`): a falsy or non-list argument yields
the zero-filled counts; otherwise the loop above runs over the entries. -/
def count_alerts_by_level (alerts : Json) : Except PyErr (List (String × Nat)) :=
  if !alerts.truthy then .ok counts0
  else
    match alerts with
    | .arr items => items.foldlM countStep counts0
    | _ => .ok counts0

/-- The level under which the loop counts an entry: `none` for skipped
(non-dict) entries, the lowercased `level` string otherwise, with a missing
`level` field defaulting to `"info"`. -/
def effLevel : Json → Option String
  | .obj kvs =>
      match jlookup "level" kvs with
      | some (.str s) => some (pyLower s)
      | some _ => none
      | none => some "info"
  | _ => none

/-- An entry the loop can process without raising: not a dict, or a dict
whose `level` field is absent or a string. -/
def levelOk : Json → Bool
  | .obj kvs =>
      match jlookup "level" kvs with
      | some (.str _) => true
      | some _ => false
      | none => true
  | _ => true

/-- The error-free residue of `countStep`. -/
def stepPure (cts : List (String × Nat)) (item : Json) : List (String × Nat) :=
  match effLevel item with
  | some lvl => if (cts.map Prod.fst).contains lvl then bump lvl cts else cts
  | none => cts

/-! ## `_generate_summary` (`src/web/report_generator.py:142-204`, C10) -/

/-- Python `round(x, 1)` on the exact value: nearest tenth, ties to even as Python
rounds. -/
def round1 (x : ℚ) : ℚ :=
  let y := x * 10
  let f : ℤ := ⌊y⌋
  let r : ℚ := y - f
  let n : ℤ :=
    if r < 1 / 2 then f
    else if 1 / 2 < r then f + 1
    else if f % 2 = 0 then f else f + 1
  (n : ℚ) / 10

/-- Python `len`: defined for sequences, strings and dicts, a `TypeError`
otherwise. -/
def pyLen : Json → Except PyErr Nat
  | .arr l => .ok l.length
  | .str s => .ok s.length
  | .obj kvs => .ok kvs.length
  | _ => .error .typeError

/-- The entry `summary["cpu_usage"]`: `cpu.get("usage_percent", 0)` when
`metrics.get("cpu", dict())` is a dict, the initial 0 otherwise. -/
def cpu_usage_of (metrics : Json) : Json :=
  match metrics.getD "cpu" (.obj []) with
  | .obj kvs => (jlookup "usage_percent" kvs).getD (.num 0)
  | _ => .num 0

/-- The entry `summary["memory_usage"]` from `metrics.get("memory", dict())`: the guarded
percentage `round(used_mb / total_mb * 100, 1)` when the value is a dict
with truthy `total_mb` and `used_mb` (so `total_mb` is never 0 in the
division), the initial 0 otherwise; non-numeric truthy fields make the
division raise `TypeError`. -/
def mem_usage_of (memory : Json) : Except PyErr Json :=
  match memory with
  | .obj kvs =>
      if optTruthy (jlookup "total_mb" kvs) && optTruthy (jlookup "used_mb" kvs) then
        match (jlookup "used_mb" kvs).bind Json.asNum,
              (jlookup "total_mb" kvs).bind Json.asNum with
        | some u, some t => .ok (.num (round1 (u / t * 100)))
        | _, _ => .error .typeError
      else .ok (.num 0)
  | _ => .ok (.num 0)

/-- The entry `summary["disk_count"]`: `len(disk)` when `metrics.get("disk", [])` is a
list, the initial 0 otherwise. -/
def disk_count_of (metrics : Json) : Nat :=
  match metrics.getD "disk" (.arr []) with
  | .arr l => l.length
  | _ => 0

/-- The entry `summary["network_interfaces"]` from `metrics.get("network", [])`:
`len(network)` for a list, `len(network.get("interfaces", []))` for a dict
(raising `TypeError` when that value has no `len`), 0 otherwise. -/
def net_count_of (network : Json) : Except PyErr Nat :=
  match network with
  | .arr l => .ok l.length
  | .obj kvs => pyLen ((jlookup "interfaces" kvs).getD (.arr []))
  | _ => .ok 0

/-- The check `if v and v > 0: temps.append(v)`: a falsy or missing value is skipped;
a truthy numeric value is appended when positive; comparing a truthy
non-number with 0 raises `TypeError`. -/
def temp_append (acc : List ℚ) (v : Option Json) : Except PyErr (List ℚ) :=
  match v with
  | none => .ok acc
  | some v =>
      if v.truthy then
        match v.asNum with
        | some q => .ok (if 0 < q then acc ++ [q] else acc)
        | none => .error .typeError
      else .ok acc

/-- One iteration of the GPU-temperature loop: non-dict entries are
skipped. -/
def gpu_step (acc : List ℚ) (gpu : Json) : Except PyErr (List ℚ) :=
  match gpu with
  | .obj gkvs => temp_append acc (jlookup "temperature_celsius" gkvs)
  | _ => .ok acc

/-- The entries `summary["gpu_count"]` and `summary["temperature_max"]` from
`metrics.get("temperature", dict())`: for a dict, the length of the GPU list (0 when
`gpus` is not a list) and the maximum of the collected positive
temperatures, 0 when none; both stay 0 when the value is not a dict. -/
def temp_stats_of (temp : Json) : Except PyErr (Nat × ℚ) :=
  match temp with
  | .obj kvs =>
      let gpus := (jlookup "gpus" kvs).getD (.arr [])
      let gpuCount : Nat := match gpus with | .arr l => l.length | _ => 0
      match temp_append [] (jlookup "cpu_celsius" kvs) with
      | .error e => .error e
      | .ok base =>
          match (match gpus with
                 | .arr l => l.foldlM gpu_step base
                 | _ => .ok base) with
          | .error e => .error e
          | .ok temps =>
              .ok (gpuCount,
                   match temps with
                   | [] => (0 : ℚ)
                   | t :: ts => ts.foldl max t)
  | _ => .ok (0, 0)

/-- Embeds `ReportGenerator._generate_summary`
(`src/web/report_generator.py:142-204`): `{}` for a falsy argument, the
six-key summary for a dict, and an `AttributeError` (from `metrics.get`) for
any truthy non-dict argument. -/
def generate_summary (metrics : Json) : Except PyErr (List (String × Json)) :=
  if !metrics.truthy then .ok []
  else
    match metrics with
    | .obj _ =>
        match mem_usage_of (metrics.getD "memory" (.obj [])) with
        | .error e => .error e
        | .ok memU =>
            match net_count_of (metrics.getD "network" (.arr [])) with
            | .error e => .error e
            | .ok netC =>
                match temp_stats_of (metrics.getD "temperature" (.obj [])) with
                | .error e => .error e
                | .ok (gpuC, tMax) =>
                    .ok [("cpu_usage", cpu_usage_of metrics),
                         ("memory_usage", memU),
                         ("disk_count", .num (disk_count_of metrics)),
                         ("network_interfaces", .num (netC : ℚ)),
                         ("gpu_count", .num (gpuC : ℚ)),
                         ("temperature_max", .num tMax)]
    | _ => .error .attributeError

/-- The memory fields actually used by the guarded division: present exactly
when the guard passes and both values are numeric. -/
def memValOf (m : Json) : Option (ℚ × ℚ) :=
  match m with
  | .obj kvs =>
      if optTruthy (jlookup "total_mb" kvs) && optTruthy (jlookup "used_mb" kvs) then
        match (jlookup "used_mb" kvs).bind Json.asNum,
              (jlookup "total_mb" kvs).bind Json.asNum with
        | some u, some t => some (u, t)
        | _, _ => none
      else none
  | _ => none

/-- The `(used_mb, total_mb)` pair the memory percentage of the summary is
computed from, if any. -/
def memFieldsNum (metrics : Json) : Option (ℚ × ℚ) :=
  memValOf (metrics.getD "memory" (.obj []))

/-- The memory value cannot make the division raise: either the guard fails
or both fields are numeric. -/
def memOk (memory : Json) : Bool :=
  match memory with
  | .obj kvs =>
      !(optTruthy (jlookup "total_mb" kvs) && optTruthy (jlookup "used_mb" kvs))
      || (((jlookup "used_mb" kvs).bind Json.asNum).isSome
          && ((jlookup "total_mb" kvs).bind Json.asNum).isSome)
  | _ => true

/-- A value Python `len` accepts. -/
def sizedOk : Json → Bool
  | .arr _ => true
  | .str _ => true
  | .obj _ => true
  | _ => false

/-- The network value cannot make `len` raise. -/
def netOk (network : Json) : Bool :=
  match network with
  | .obj kvs => sizedOk ((jlookup "interfaces" kvs).getD (.arr []))
  | _ => true

/-- A temperature value that cannot make `v > 0` raise: missing, falsy or
numeric. -/
def tempValOk (v : Option Json) : Bool :=
  match v with
  | none => true
  | some v => !v.truthy || v.asNum.isSome

/-- A GPU entry whose temperature comparison cannot raise. -/
def gpuOk : Json → Bool
  | .obj gkvs => tempValOk (jlookup "temperature_celsius" gkvs)
  | _ => true

/-- The temperature value cannot make the collection loop raise. -/
def tempOk (temp : Json) : Bool :=
  match temp with
  | .obj kvs =>
      tempValOk (jlookup "cpu_celsius" kvs)
      && (match (jlookup "gpus" kvs).getD (.arr []) with
          | .arr l => l.all gpuOk
          | _ => true)
  | _ => true

/-- A metrics value on which `_generate_summary` cannot raise: falsy, or a
dict whose memory, network and temperature fields have workable shapes. -/
def metricsWellFormed (metrics : Json) : Bool :=
  !metrics.truthy
  || (match metrics with
      | .obj _ =>
          memOk (metrics.getD "memory" (.obj []))
          && netOk (metrics.getD "network" (.arr []))
          && tempOk (metrics.getD "temperature" (.obj []))
      | _ => false)

/-! ## Theorems -/

theorem runBuffer_append {α : Type} (N : Nat) (l : List α) (x : α) :
    runBuffer N (l ++ [x]) = pushEvict N (runBuffer N l) x := by
  simp [runBuffer, List.foldl_append]

/-- The buffer after any sequence of appends holds exactly the last
`min N (length)` values in arrival order. -/
theorem runBuffer_eq_drop {α : Type} (N : Nat) (l : List α) :
    runBuffer N l = l.drop (l.length - N) := by
  induction l using List.reverseRecOn with
  | nil => simp [runBuffer]
  | append_singleton l x ih =>
      rw [runBuffer_append, ih]
      by_cases h : l.length < N
      · have h0 : l.length - N = 0 := by omega
        have h1 : l.length + 1 - N = 0 := by omega
        simp [pushEvict, h0, h1]
        omega
      · push_neg at h
        have hlen : (l.drop (l.length - N)).length = N := by
          simp [List.length_drop]
          omega
        simp only [pushEvict]
        have hcond : N < (l.drop (l.length - N) ++ [x]).length := by
          simp [hlen]
        rw [if_pos hcond]
        rcases Nat.eq_zero_or_pos N with hN | hN
        · subst hN
          simp only [Nat.sub_zero] at *
          rw [List.drop_length]
          simp
        · rw [List.tail_append_of_ne_nil]
          · rw [List.tail_drop]
            rw [show (l ++ [x]).length - N = (l.length - N) + 1 by
              simp; omega]
            rw [List.drop_append_of_le_length (by omega)]
          · intro hnil
            have := congrArg List.length hnil
            rw [hlen] at this
            simp at this
            omega

/-- C2: for every capacity `N` and every sequence of appends the buffer holds
exactly the trailing `min N length` values (so its length never exceeds `N`
and overflow evicts the oldest, FIFO); concretely, 100 sequential appends
into a capacity-60 buffer leave exactly the last 60 values in arrival order,
with slot 0 holding the 41st appended value. -/
theorem rolling_buffer_bounded_fifo :
    (∀ (α : Type) (N : Nat) (l : List α),
        runBuffer N l = l.drop (l.length - N) ∧ (runBuffer N l).length ≤ N)
    ∧ runBuffer 60 (List.range 100) = List.range' 40 60
    ∧ (runBuffer 60 (List.range 100)).head? = some 40
    ∧ (List.range 100).get? 40 = some 40 := by
  refine ⟨fun α N l => ⟨runBuffer_eq_drop N l, ?_⟩, by decide, by decide, by decide⟩
  rw [runBuffer_eq_drop]
  rw [List.length_drop]
  omega

theorem lexLe_total : ∀ xs ys : List Char, lexLe xs ys = true ∨ lexLe ys xs = true := by
  intro xs
  induction xs with
  | nil => intro ys; left; rfl
  | cons c cs ih =>
      intro ys
      cases ys with
      | nil => right; rfl
      | cons d ds =>
          simp only [lexLe]
          by_cases h : c.toNat = d.toNat
          · rw [if_pos h, if_pos h.symm]
            exact ih ds
          · rw [if_neg h, if_neg (Ne.symm h)]
            rcases Nat.lt_or_ge c.toNat d.toNat with hlt | hge
            · exact Or.inl (decide_eq_true hlt)
            · exact Or.inr (decide_eq_true (by omega))

theorem lexLe_trans : ∀ xs ys zs : List Char,
    lexLe xs ys = true → lexLe ys zs = true → lexLe xs zs = true := by
  intro xs
  induction xs with
  | nil => intros; rfl
  | cons c cs ih =>
      intro ys zs h1 h2
      cases ys with
      | nil => simp [lexLe] at h1
      | cons d ds =>
          cases zs with
          | nil => simp [lexLe] at h2
          | cons e es =>
              simp only [lexLe] at h1 h2 ⊢
              by_cases hcd : c.toNat = d.toNat
              · rw [if_pos hcd] at h1
                by_cases hde : d.toNat = e.toNat
                · rw [if_pos hde] at h2
                  rw [if_pos (hcd.trans hde)]
                  exact ih ds es h1 h2
                · rw [if_neg hde] at h2
                  have hd : d.toNat < e.toNat := of_decide_eq_true h2
                  rw [if_neg (by omega)]
                  exact decide_eq_true (by omega)
              · rw [if_neg hcd] at h1
                have hc : c.toNat < d.toNat := of_decide_eq_true h1
                by_cases hde : d.toNat = e.toNat
                · rw [if_pos hde] at h2
                  rw [if_neg (by omega)]
                  exact decide_eq_true (by omega)
                · rw [if_neg hde] at h2
                  have hd : d.toNat < e.toNat := of_decide_eq_true h2
                  rw [if_neg (by omega)]
                  exact decide_eq_true (by omega)

theorem keyLe_total : ∀ x y : Option String, keyLe x y = true ∨ keyLe y x = true := by
  intro x y
  cases x with
  | none => exact Or.inl rfl
  | some a =>
      cases y with
      | none => exact Or.inr rfl
      | some b => exact lexLe_total a.data b.data

theorem keyLe_trans : ∀ x y z : Option String,
    keyLe x y = true → keyLe y z = true → keyLe x z = true := by
  intro x y z h1 h2
  cases x with
  | none => rfl
  | some a =>
      cases y with
      | none => simp [keyLe] at h1
      | some b =>
          cases z with
          | none => simp [keyLe] at h2
          | some c => exact lexLe_trans a.data b.data c.data h1 h2

instance : IsTotal Json tsGE :=
  ⟨fun a b => (keyLe_total (tsKey b) (tsKey a)).imp id id⟩

instance : IsTrans Json tsGE :=
  ⟨fun _ _ _ hab hbc => keyLe_trans _ _ _ hbc hab⟩

/-- C4: for snapshots at `t0 < t1` with non-decreasing counters the derived
rate is `(c1 - c0) / (t1 - t0) / 1048576` MB/s — concretely `c0 = 1000000`,
`c1 = 3000000` over 2 seconds is within the 10% tolerance the test allows around
0.95 MB/s — and a counter decrease yields 0, never a negative rate. -/
theorem network_rate_spec (t0 t1 c0 c1 : ℚ) (hd : t0 < t1) :
    (c0 ≤ c1 →
      networkRateSafe c0 c1 (t1 - t0) = (c1 - c0) / (t1 - t0) / 1048576)
    ∧ (c1 < c0 → networkRateSafe c0 c1 (t1 - t0) = 0)
    ∧ 0 ≤ networkRateSafe c0 c1 (t1 - t0)
    ∧ |networkRateSafe 1000000 3000000 2 - 0.95| ≤ 0.1 * 0.95 := by
  refine ⟨fun h => ?_, fun h => ?_, ?_, ?_⟩
  · rw [networkRateSafe, if_neg (not_lt.2 h), networkRate]
    norm_num
  · rw [networkRateSafe, if_pos h]
  · rw [networkRateSafe]
    split
    · exact le_refl 0
    · rename_i h
      push_neg at h
      exact div_nonneg (div_nonneg (by linarith) (by linarith)) (by norm_num)
  · rw [networkRateSafe, networkRate]
    norm_num
    rw [abs_le]
    constructor <;> norm_num

/-- Closed instance of `network_rate_spec` at the inputs of the test. -/
theorem network_rate_spec_witness :
    networkRateSafe 1000000 3000000 (2 - 0) = (3000000 - 1000000) / (2 - 0) / 1048576 :=
  (network_rate_spec 0 2 1000000 3000000 (by norm_num)).1 (by norm_num)

/-- C1: adding an alert with a level in the enumerated set succeeds and the
alert is retrievable by a subsequent `load` on the same file; adding with any
other level string returns `false` and leaves the file state untouched. -/
theorem add_alert_valid_persists_invalid_rejected
    (metric level message : String) (value threshold : Option ℚ)
    (now now' : String) (st : FileState) :
    (level ∈ validLevels →
      (add_alert metric level message value threshold now st).1 = true ∧
      mkAlert metric level message value threshold now ∈
        (load_alerts now' (add_alert metric level message value threshold now st).2).1)
    ∧ (level ∉ validLevels →
      add_alert metric level message value threshold now st = (false, st)) := by
  constructor
  · intro h
    constructor
    · simp [add_alert, if_pos h]
    · simp [add_alert, if_pos h, load_alerts, alertsOf, jlookup]
  · intro h
    simp only [add_alert, if_neg h]

/-- Closed instance of `add_alert_valid_persists_invalid_rejected`: a
`warning` alert is persisted and retrievable; level `"bogus"` is rejected
with the file state unchanged. -/
theorem add_alert_valid_persists_invalid_rejected_witness :
    (mkAlert "cpu" "warning" "CPU high" (some 85.5) (some 80) "T1" ∈
      (load_alerts "T2"
        (add_alert "cpu" "warning" "CPU high" (some 85.5) (some 80) "T1" .missing).2).1)
    ∧ add_alert "cpu" "bogus" "m" none none "T1" .missing = (false, .missing) :=
  ⟨((add_alert_valid_persists_invalid_rejected "cpu" "warning" "CPU high"
      (some 85.5) (some 80) "T1" "T2" .missing).1 (by decide)).2,
   (add_alert_valid_persists_invalid_rejected "cpu" "bogus" "m"
      none none "T1" "T1" .missing).2 (by decide)⟩

/-- C6: `load` on an unparseable file, or on a parsed document whose `alerts`
field is not a sequence, returns the empty sequence and leaves the file state
exactly as it was (the malformed file is not rewritten). -/
theorem load_malformed_returns_empty (now : String) :
    load_alerts now .corrupt = ([], .corrupt)
    ∧ ∀ j : Json, alertsOf j = none → load_alerts now (.doc j) = ([], .doc j) := by
  refine ⟨rfl, fun j h => ?_⟩
  simp [load_alerts, h]

/-- Closed instance of `load_malformed_returns_empty` at a document whose
`alerts` field is a string. -/
theorem load_malformed_returns_empty_witness :
    load_alerts "T" (.doc (.obj [("alerts", Json.str "not a list")]))
      = ([], .doc (.obj [("alerts", Json.str "not a list")])) :=
  (load_malformed_returns_empty "T").2 _ rfl

/-- C7: `load` on a missing file creates the empty well-formed log
`{timestamp: now, alerts: []}` as a side effect and returns the empty
sequence; a second `load` on the resulting state returns the empty sequence
and leaves the state unchanged (the file is not recreated). -/
theorem load_missing_creates_empty_file (now now' : String) :
    load_alerts now .missing = ([], .doc (emptyLog now))
    ∧ load_alerts now' (.doc (emptyLog now)) = ([], .doc (emptyLog now)) := by
  refine ⟨rfl, ?_⟩
  simp [load_alerts, emptyLog, alertsOf, jlookup]

/-- C8: sorting is descending by timestamp — the 10:00/12:00/11:00 example
comes out `["New", "Mid", "Old"]` — every input permutes to the output (no
entry is dropped and nothing fails), the output is pairwise ordered under the
descending-timestamp relation, and a missing timestamp is strictly below
every present timestamp, so such entries sort last. -/
theorem sort_alerts_desc_missing_last :
    (sort_alerts_by_timestamp
        [.obj [("message", .str "Old"), ("timestamp", .str "2025-12-05T10:00:00Z")],
         .obj [("message", .str "New"), ("timestamp", .str "2025-12-05T12:00:00Z")],
         .obj [("message", .str "Mid"), ("timestamp", .str "2025-12-05T11:00:00Z")]]).map msgOf
      = ["New", "Mid", "Old"]
    ∧ (∀ l : List Json, (sort_alerts_by_timestamp l).Perm l
        ∧ List.Sorted tsGE (sort_alerts_by_timestamp l))
    ∧ (∀ s : String, keyLe none (some s) = true ∧ keyLe (some s) none = false) := by
  refine ⟨by decide, fun l => ⟨List.perm_insertionSort tsGE l,
    List.sorted_insertionSort tsGE l⟩, fun s => ⟨rfl, rfl⟩⟩

/-- C3 (counterexample): with the native snapshot file readable and truthy
(`1`) and the live API simultaneously available with different data (`2`),
`get_dual_metrics` serves the cached file value, not the live one — the
reconciler does not prefer a live query over a cached snapshot file. -/
theorem dual_prefers_file_counterexample :
    (get_dual_metrics ⟨some (some (.num 7)), some (some (.num 1)), some (.num 2)⟩).native
        = some (Json.num 1)
    ∧ some (Json.num 1) ≠ some (Json.num 2) := by
  refine ⟨rfl, fun h => ?_⟩
  simp only [Option.some.injEq, Json.num.injEq] at h
  norm_num at h

/-- C3 (amended): `get_dual_metrics` never fails (`success` is always
`true`); the legacy slot comes only from the legacy snapshot file; the
native slot prefers the cached file — a readable truthy file value is served
even when the live API is available — and consults the live API only when
the file yields nothing; when both file and API yield nothing the slot is
absent without error. -/
theorem dual_reconciler_file_first (env : DualEnv) (j a : Json) :
    (get_dual_metrics env).success = true
    ∧ (get_dual_metrics env).legacy = fileRead env.hostLatest
    ∧ (env.goLatest = some (some j) → j.truthy = true →
        (get_dual_metrics env).native = some j)
    ∧ (fileRead env.goLatest = none → env.nativeApi = some a →
        (get_dual_metrics env).native = some a)
    ∧ (fileRead env.goLatest = none → env.nativeApi = none →
        (get_dual_metrics env).native = none) := by
  refine ⟨rfl, rfl, fun hg ht => ?_, fun hg ha => ?_, fun hg ha => ?_⟩
  · simp [get_dual_metrics, hg, fileRead, optTruthy, ht]
  · simp [get_dual_metrics, hg, ha, optTruthy]
  · simp [get_dual_metrics, hg, ha, optTruthy]

/-- Closed instance of `dual_reconciler_file_first`: a truthy native file is
served despite a live API answering different data, and with nothing
available both slots are absent while `success` stays `true`. -/
theorem dual_reconciler_file_first_witness :
    (get_dual_metrics ⟨none, some (some (.num 5)), some (.num 9)⟩).native
        = some (Json.num 5)
    ∧ (get_dual_metrics ⟨none, none, none⟩).native = none
    ∧ (get_dual_metrics ⟨none, none, none⟩).success = true :=
  ⟨(dual_reconciler_file_first ⟨none, some (some (.num 5)), some (.num 9)⟩
      (.num 5) (.num 9)).2.2.1 rfl (by decide),
   (dual_reconciler_file_first ⟨none, none, none⟩ .null .null).2.2.2.2 rfl rfl,
   (dual_reconciler_file_first ⟨none, none, none⟩ .null .null).1⟩

/-- C5 (counterexample): with both snapshot sources absent,
`get_dual_metrics` still answers `success: true` with two null slots — not a
distinct explicit failure status. -/
theorem dual_both_absent_success_counterexample :
    (get_dual_metrics ⟨none, none, none⟩).success = true
    ∧ (get_dual_metrics ⟨none, none, none⟩).legacy = none
    ∧ (get_dual_metrics ⟨none, none, none⟩).native = none :=
  ⟨rfl, rfl, rfl⟩

/-- C5 (amended): `get_metrics` answers a distinct 503 `success: false`
"unavailable" state when neither the host file nor the newest archive file
yields data, and `generate_report` answers `success: false` when every
source yields nothing; `get_dual_metrics`, however, reports `success: true`
with both slots null in that situation, conveying absence only through the
null slots. -/
theorem unavailable_reporting (menv : MetricsEnv) (renv : ReportEnv)
    (denv : DualEnv) :
    (fileRead menv.hostLatest = none →
      (menv.archive = [] ∨ ∃ rest, menv.archive = none :: rest) →
      get_metrics menv = .unavailable)
    ∧ (fileRead renv.hostLatest = none → renv.archive = [] →
        fileRead renv.goLatest = none → renv.nativeApi = none →
        generate_report_fetch renv = .noMetrics)
    ∧ (get_dual_metrics denv).success = true := by
  refine ⟨fun hh ha => ?_, fun hh ha hg hn => ?_, rfl⟩
  · unfold get_metrics
    cases hm : menv.hostLatest with
    | none =>
        rcases ha with ha | ⟨rest, ha⟩ <;> rw [ha]
    | some o =>
        cases o with
        | none => rcases ha with ha | ⟨rest, ha⟩ <;> rw [ha]
        | some j => rw [hm] at hh; simp [fileRead] at hh
  · unfold generate_report_fetch report_legacy report_native
    rw [hh, ha, hg, hn]
    rfl

/-- Closed instance of `unavailable_reporting` with every source absent. -/
theorem unavailable_reporting_witness :
    get_metrics ⟨none, []⟩ = .unavailable
    ∧ generate_report_fetch ⟨none, [], none, none⟩ = .noMetrics :=
  ⟨(unavailable_reporting ⟨none, []⟩ ⟨none, [], none, none⟩
      ⟨none, none, none⟩).1 rfl (Or.inl rfl),
   (unavailable_reporting ⟨none, []⟩ ⟨none, [], none, none⟩
      ⟨none, none, none⟩).2.1 rfl rfl rfl rfl⟩

theorem bump_keys (k : String) (cts : List (String × Nat)) :
    (bump k cts).map Prod.fst = cts.map Prod.fst := by
  induction cts with
  | nil => rfl
  | cons p rest ih =>
      obtain ⟨k', n⟩ := p
      by_cases h : k' = k
      · simp [bump, h]
      · simp [bump, h, ih]

theorem lookup_bump (l k : String) (cts : List (String × Nat)) :
    jlookup l (bump k cts)
      = if l = k then (jlookup l cts).map (· + 1) else jlookup l cts := by
  induction cts with
  | nil =>
      simp [bump, jlookup]
  | cons p rest ih =>
      obtain ⟨k', n⟩ := p
      by_cases hk : k' = k
      · subst hk
        by_cases hl : k' = l
        · subst hl
          simp [bump, jlookup]
        · simp [bump, jlookup, hl, Ne.symm hl]
      · by_cases hl : k' = l
        · subst hl
          simp [bump, hk, jlookup]
        · simp [bump, hk, jlookup, hl, ih]

theorem lookup_none_of_contains_false (l : String) (cts : List (String × Nat))
    (h : (cts.map Prod.fst).contains l = false) : jlookup l cts = none := by
  induction cts with
  | nil => rfl
  | cons p rest ih =>
      obtain ⟨k', n⟩ := p
      simp only [List.map_cons, List.contains_cons, Bool.or_eq_false_iff] at h
      have hne : ¬(k' = l) := by
        intro he
        rw [he] at h
        simp at h
      simp [jlookup, hne, ih h.2]

theorem stepPure_keys (cts : List (String × Nat)) (item : Json) :
    (stepPure cts item).map Prod.fst = cts.map Prod.fst := by
  unfold stepPure
  cases effLevel item with
  | none => rfl
  | some lvl =>
      dsimp only
      split
      · exact bump_keys lvl cts
      · rfl

theorem foldl_stepPure_keys (items : List Json) (cts : List (String × Nat)) :
    (items.foldl stepPure cts).map Prod.fst = cts.map Prod.fst := by
  induction items generalizing cts with
  | nil => rfl
  | cons i rest ih => rw [List.foldl_cons, ih, stepPure_keys]

theorem lookup_stepPure (l : String) (cts : List (String × Nat)) (item : Json) :
    jlookup l (stepPure cts item)
      = if effLevel item = some l then (jlookup l cts).map (· + 1)
        else jlookup l cts := by
  unfold stepPure
  cases hE : effLevel item with
  | none => simp
  | some lvl =>
      dsimp only
      by_cases hc : (cts.map Prod.fst).contains lvl
      · rw [if_pos hc, lookup_bump]
        by_cases hl : lvl = l
        · subst hl
          simp
        · rw [if_neg (fun h => hl h.symm)]
          simp [hl]
      · rw [if_neg hc]
        by_cases hl : lvl = l
        · subst hl
          rw [lookup_none_of_contains_false lvl cts (Bool.not_eq_true _ ▸ eq_false_of_ne_true hc)]
          simp
        · simp [hl]

theorem countStep_eq_stepPure (cts : List (String × Nat)) (item : Json)
    (h : levelOk item = true) : countStep cts item = .ok (stepPure cts item) := by
  cases item with
  | obj kvs =>
      cases hL : jlookup "level" kvs with
      | none => simp [countStep, stepPure, effLevel, hL]
      | some v =>
          cases v
          case str s => simp [countStep, stepPure, effLevel, hL]
          all_goals simp [levelOk, hL] at h
  | null => rfl
  | bool b => rfl
  | num q => rfl
  | str s => rfl
  | arr xs => rfl

theorem foldlM_countStep_ok (items : List Json) (cts : List (String × Nat))
    (h : items.all levelOk = true) :
    items.foldlM countStep cts = .ok (items.foldl stepPure cts) := by
  induction items generalizing cts with
  | nil => rfl
  | cons i rest ih =>
      rw [List.all_cons, Bool.and_eq_true] at h
      rw [List.foldlM_cons, countStep_eq_stepPure cts i h.1]
      simpa using ih (stepPure cts i) h.2

theorem lookup_foldl_stepPure (l : String) (items : List Json)
    (cts : List (String × Nat)) :
    jlookup l (items.foldl stepPure cts)
      = (jlookup l cts).map
          (· + items.countP (fun i => effLevel i == some l)) := by
  induction items generalizing cts with
  | nil =>
      simp only [List.foldl_nil, List.countP_nil]
      cases h : jlookup l cts
      all_goals simp [h]
  | cons i rest ih =>
      rw [List.foldl_cons, ih, lookup_stepPure, List.countP_cons]
      by_cases hE : effLevel i = some l
      · rw [if_pos hE]
        have : (effLevel i == some l) = true := by simp [hE]
        rw [this]
        cases jlookup l cts
        all_goals simp
        omega
      · rw [if_neg hE]
        have : (effLevel i == some l) = false := by simp [hE]
        rw [this]
        cases jlookup l cts <;> simp

theorem count_alerts_by_level_ok (alerts : List Json)
    (h : alerts.all levelOk = true) :
    count_alerts_by_level (.arr alerts) = .ok (alerts.foldl stepPure counts0) := by
  cases alerts with
  | nil => rfl
  | cons a rest =>
      unfold count_alerts_by_level
      simp only [Json.truthy, List.isEmpty_cons, Bool.not_false, if_true]
      exact foldlM_countStep_ok _ _ h

/-- C9: on any list of entries whose `level` fields (when present on a dict
entry) are strings, `_count_alerts_by_level` succeeds with a counts dict
holding exactly the keys `critical`, `warning`, `info`, each mapped to the
number of entries counted under that level (so levels absent from the input
stay zero-filled); in particular the empty list yields all zeros, and the
`[info, warning, warning, critical]` example yields 1/2/1. -/
theorem count_alerts_by_level_spec (alerts : List Json)
    (h : alerts.all levelOk = true) :
    (∃ cts, count_alerts_by_level (.arr alerts) = .ok cts
      ∧ cts.map Prod.fst = ["critical", "warning", "info"]
      ∧ ∀ lvl, lvl ∈ (["critical", "warning", "info"] : List String) →
          jlookup lvl cts = some (alerts.countP (fun i => effLevel i == some lvl)))
    ∧ count_alerts_by_level (.arr [])
        = .ok [("critical", 0), ("warning", 0), ("info", 0)]
    ∧ count_alerts_by_level (.arr
        [.obj [("level", .str "info"), ("message", .str "Test 1")],
         .obj [("level", .str "warning"), ("message", .str "Test 2")],
         .obj [("level", .str "warning"), ("message", .str "Test 3")],
         .obj [("level", .str "critical"), ("message", .str "Test 4")]])
        = .ok [("critical", 1), ("warning", 2), ("info", 1)] := by
  refine ⟨⟨alerts.foldl stepPure counts0, count_alerts_by_level_ok alerts h, ?_, ?_⟩,
    rfl, rfl⟩
  · rw [foldl_stepPure_keys]
    rfl
  · intro lvl hlvl
    rw [lookup_foldl_stepPure]
    have h0 : jlookup lvl counts0 = some 0 := by
      simp only [List.mem_cons, List.not_mem_nil, or_false] at hlvl
      rcases hlvl with rfl | rfl | rfl <;> rfl
    rw [h0]
    simp

/-- Closed instance of `count_alerts_by_level_spec` at the four-alert
example. -/
theorem count_alerts_by_level_spec_witness :
    count_alerts_by_level (.arr
        [.obj [("level", .str "info"), ("message", .str "Test 1")],
         .obj [("level", .str "warning"), ("message", .str "Test 2")],
         .obj [("level", .str "warning"), ("message", .str "Test 3")],
         .obj [("level", .str "critical"), ("message", .str "Test 4")]])
      = .ok [("critical", 1), ("warning", 2), ("info", 1)] :=
  (count_alerts_by_level_spec [] rfl).2.2

theorem mem_usage_of_eq (m : Json) (h : memOk m = true) :
    mem_usage_of m = .ok (.num (match memValOf m with
      | some (u, t) => round1 (u / t * 100)
      | none => 0)) := by
  cases m with
  | obj kvs =>
      by_cases hc : (optTruthy (jlookup "total_mb" kvs)
          && optTruthy (jlookup "used_mb" kvs)) = true
      · simp only [memOk, hc, Bool.not_true, Bool.false_or] at h
        rw [Bool.and_eq_true] at h
        obtain ⟨u, hu⟩ := Option.isSome_iff_exists.mp h.1
        obtain ⟨t, ht⟩ := Option.isSome_iff_exists.mp h.2
        simp [mem_usage_of, memValOf, hc, hu, ht]
      · rw [Bool.not_eq_true] at hc
        simp [mem_usage_of, memValOf, hc]
  | null => rfl
  | bool b => rfl
  | num q => rfl
  | str s => rfl
  | arr xs => rfl

theorem net_count_of_ok (n : Json) (h : netOk n = true) :
    ∃ c, net_count_of n = .ok c := by
  cases n with
  | arr l => exact ⟨l.length, rfl⟩
  | obj kvs =>
      simp only [netOk] at h
      simp only [net_count_of]
      cases hv : (jlookup "interfaces" kvs).getD (.arr [])
      all_goals rw [hv] at h
      all_goals first
        | exact ⟨_, rfl⟩
        | simp [sizedOk] at h
  | null => exact ⟨0, rfl⟩
  | bool b => exact ⟨0, rfl⟩
  | num q => exact ⟨0, rfl⟩
  | str s => exact ⟨0, rfl⟩

theorem temp_append_ok (acc : List ℚ) (v : Option Json)
    (h : tempValOk v = true) : ∃ l, temp_append acc v = .ok l := by
  cases v with
  | none => exact ⟨acc, rfl⟩
  | some j =>
      by_cases ht : j.truthy = true
      · simp only [tempValOk, ht, Bool.not_true, Bool.false_or] at h
        obtain ⟨q, hq⟩ := Option.isSome_iff_exists.mp h
        exact ⟨if 0 < q then acc ++ [q] else acc, by simp [temp_append, ht, hq]⟩
      · rw [Bool.not_eq_true] at ht
        exact ⟨acc, by simp [temp_append, ht]⟩

theorem gpu_fold_ok (l : List Json) (acc : List ℚ)
    (h : l.all gpuOk = true) : ∃ out, l.foldlM gpu_step acc = .ok out := by
  induction l generalizing acc with
  | nil => exact ⟨acc, rfl⟩
  | cons g rest ih =>
      rw [List.all_cons, Bool.and_eq_true] at h
      obtain ⟨acc', hacc⟩ : ∃ acc', gpu_step acc g = .ok acc' := by
        cases g with
        | obj gkvs => exact temp_append_ok acc _ (by simpa [gpuOk] using h.1)
        | null => exact ⟨acc, rfl⟩
        | bool b => exact ⟨acc, rfl⟩
        | num q => exact ⟨acc, rfl⟩
        | str s => exact ⟨acc, rfl⟩
        | arr xs => exact ⟨acc, rfl⟩
      obtain ⟨out, hout⟩ := ih acc' h.2
      refine ⟨out, ?_⟩
      rw [List.foldlM_cons, hacc]
      exact hout

theorem temp_stats_of_ok (t : Json) (h : tempOk t = true) :
    ∃ p, temp_stats_of t = .ok p := by
  cases t with
  | obj kvs =>
      unfold tempOk at h
      rw [Bool.and_eq_true] at h
      obtain ⟨base, hbase⟩ := temp_append_ok [] _ h.1
      cases hg : (jlookup "gpus" kvs).getD (.arr []) with
      | arr l =>
          rw [hg] at h
          obtain ⟨temps, htemps⟩ := gpu_fold_ok l base h.2
          exact ⟨_, by simp only [temp_stats_of, hg, hbase, htemps]; rfl⟩
      | null => exact ⟨_, by simp only [temp_stats_of, hg, hbase]; rfl⟩
      | bool b => exact ⟨_, by simp only [temp_stats_of, hg, hbase]; rfl⟩
      | num q => exact ⟨_, by simp only [temp_stats_of, hg, hbase]; rfl⟩
      | str s => exact ⟨_, by simp only [temp_stats_of, hg, hbase]; rfl⟩
      | obj kvs2 => exact ⟨_, by simp only [temp_stats_of, hg, hbase]; rfl⟩
  | null => exact ⟨(0, 0), rfl⟩
  | bool b => exact ⟨(0, 0), rfl⟩
  | num q => exact ⟨(0, 0), rfl⟩
  | str s => exact ⟨(0, 0), rfl⟩
  | arr xs => exact ⟨(0, 0), rfl⟩

/-- C10 (counterexample): `_generate_summary` does raise on a truthy
non-dict metrics value — here a non-empty JSON list, as `json.load` can
produce — because `metrics.get` is not an attribute of a list. -/
theorem generate_summary_raises_on_list :
    generate_summary (Json.arr [Json.num 1]) = .error .attributeError := rfl

/-- C10 (amended): on every metrics value that is falsy or a dict of
workable shape (memory fields numeric when the guard passes, network and
temperature fields sized/numeric where used), `_generate_summary` does not
raise; it returns `{}` for a falsy value and otherwise a mapping with
exactly the keys `cpu_usage, memory_usage, disk_count, network_interfaces,
gpu_count, temperature_max`, where `memory_usage` is
`round(used_mb / total_mb * 100, 1)` exactly when both memory fields are
present, truthy and numeric (so `total_mb` is never 0 in the division) and
0 otherwise. -/
theorem generate_summary_spec (metrics : Json)
    (h : metricsWellFormed metrics = true) :
    ∃ s, generate_summary metrics = .ok s
      ∧ (metrics.truthy = false → s = [])
      ∧ (metrics.truthy = true →
          s.map Prod.fst = ["cpu_usage", "memory_usage", "disk_count",
            "network_interfaces", "gpu_count", "temperature_max"])
      ∧ (∀ u t : ℚ, memFieldsNum metrics = some (u, t) →
          jlookup "memory_usage" s = some (Json.num (round1 (u / t * 100))))
      ∧ (metrics.truthy = true → memFieldsNum metrics = none →
          jlookup "memory_usage" s = some (Json.num 0)) := by
  by_cases ht : metrics.truthy = true
  · have hm : ∃ kvs, metrics = .obj kvs := by
      unfold metricsWellFormed at h
      rw [ht] at h
      cases metrics with
      | obj kvs => exact ⟨kvs, rfl⟩
      | null => simp at h
      | bool b => simp at h
      | num q => simp at h
      | str s => simp at h
      | arr xs => simp at h
    obtain ⟨kvs, rfl⟩ := hm
    have hb : ((memOk ((Json.obj kvs).getD "memory" (.obj []))
        && netOk ((Json.obj kvs).getD "network" (.arr [])))
        && tempOk ((Json.obj kvs).getD "temperature" (.obj []))) = true := by
      have h' := h
      simp only [metricsWellFormed, ht, Bool.not_true, Bool.false_or] at h'
      exact h'
    rw [Bool.and_eq_true, Bool.and_eq_true] at hb
    obtain ⟨⟨hmem, hnet⟩, htemp⟩ := hb
    obtain ⟨c, hc⟩ := net_count_of_ok _ hnet
    obtain ⟨⟨g, tm⟩, hp⟩ := temp_stats_of_ok _ htemp
    refine ⟨[("cpu_usage", cpu_usage_of (.obj kvs)),
             ("memory_usage", .num (match memValOf ((Json.obj kvs).getD "memory" (.obj [])) with
                | some (u, t) => round1 (u / t * 100)
                | none => 0)),
             ("disk_count", .num (disk_count_of (.obj kvs))),
             ("network_interfaces", .num (c : ℚ)),
             ("gpu_count", .num (g : ℚ)),
             ("temperature_max", .num tm)], ?_, ?_, fun _ => rfl, ?_, ?_⟩
    · simp [generate_summary, ht, mem_usage_of_eq _ hmem, hc, hp]
    · intro hf
      simp [ht] at hf
    · intro u t hf
      simp only [memFieldsNum] at hf
      simp [jlookup, hf]
    · intro _ hf
      simp only [memFieldsNum] at hf
      simp [jlookup, hf]
  · rw [Bool.not_eq_true] at ht
    have hnone : memFieldsNum metrics = none := by
      cases metrics with
      | obj kvs =>
          have hk : kvs = [] := by
            simpa [Json.truthy, List.isEmpty_iff] using ht
          subst hk
          rfl
      | null => rfl
      | bool b => rfl
      | num q => rfl
      | str s => rfl
      | arr xs => rfl
    refine ⟨[], ?_, fun _ => rfl, ?_, ?_, ?_⟩
    · simp [generate_summary, ht]
    · intro htr
      simp [ht] at htr
    · intro u t hf
      rw [hnone] at hf
      simp at hf
    · intro htr _
      simp [ht] at htr

/-- Closed instance of `generate_summary_spec` at a dict with numeric memory
fields. -/
theorem generate_summary_spec_witness :
    ∃ s, generate_summary (Json.obj [("memory",
        Json.obj [("total_mb", Json.num 16000), ("used_mb", Json.num 8000)])]) = .ok s
      ∧ s.map Prod.fst = ["cpu_usage", "memory_usage", "disk_count",
          "network_interfaces", "gpu_count", "temperature_max"] := by
  obtain ⟨s, hok, -, hkeys, -, -⟩ :=
    generate_summary_spec (Json.obj [("memory",
      Json.obj [("total_mb", Json.num 16000), ("used_mb", Json.num 8000)])]) (by rfl)
  exact ⟨s, hok, hkeys rfl⟩

end SysMon
